import Mathlib

/- Verification of the per-tick agent simulation and animation-state resolution
   pipeline of a zombie survival game (source: src/zombie/mod.rs), checked against
   its natural-language specification.  Scalars that the source stores as f32 are
   modelled exactly over the rationals; the external collaborators the spec keeps
   out of scope (path heading, tile walkability, random source, sprite metadata)
   appear as oracle parameters, so every universally quantified theorem below
   holds for every behaviour of those collaborators. -/

set_option linter.unusedVariables false

namespace ZombieGame

/-- A 2D float vector; stands for both the shader `Position` record and
    `cgmath::Point2<f32>` of the source (their arithmetic is identical
    componentwise addition and subtraction). -/
structure Position where
  x : ℚ
  y : ℚ
  deriving DecidableEq, Repr

instance : Add Position := ⟨fun a b => ⟨a.x + b.x, a.y + b.y⟩⟩

instance : Sub Position := ⟨fun a b => ⟨a.x - b.x, a.y - b.y⟩⟩

/-- Modelled from the spec: the `Orientation` enum (module graphics::orientation,
    which is not under src/): eight discrete compass directions plus a `Still`
    sentinel (spec, GLOSSARY). -/
inductive Orientation where
  | Right
  | UpRight
  | Up
  | UpLeft
  | Left
  | DownLeft
  | Down
  | DownRight
  | Still
  deriving DecidableEq, Repr

/-- Modelled from the spec: the numeric discriminant the source reads with
    `as usize`; the eight directions are numbered 0..7 in declaration order and
    the `Still` sentinel comes last. -/
def Orientation.code : Orientation → ℕ
  | Orientation.Right => 0
  | Orientation.UpRight => 1
  | Orientation.Up => 2
  | Orientation.UpLeft => 3
  | Orientation.Left => 4
  | Orientation.DownLeft => 5
  | Orientation.Down => 6
  | Orientation.DownRight => 7
  | Orientation.Still => 8

/-- Modelled from the spec: the `Stance` enum (module graphics::orientation, not
    under src/): Still, Walking and the two terminal death stances (spec, §3). -/
inductive Stance where
  | Still
  | Walking
  | NormalDeath
  | CriticalDeath
  deriving DecidableEq, Repr

/-- Stand-in for the GPU `Projection` record (a pair of 4x4 f32 matrices).  Its
    contents are opaque to the simulation core, which only stores and forwards
    it, so a single scalar placeholder suffices. -/
abbrev Projection := ℚ

/-- Player control state; the core reads only the accumulated `movement`
    position (the player's current world reference point, spec §3). -/
structure CharacterInputState where
  movement : Position
  deriving DecidableEq, Repr

/-- Projectile state as seen by the core: only its position is read (spec §3). -/
structure BulletDrawable where
  position : Position
  deriving DecidableEq, Repr

/-- Modelled from the spec: the external collaborators of §6 that the zombie
    module imports from modules not under src/ (path-heading function, heading
    to orientation and to unit-vector conversions, 180 degree reversal, tile
    walkability, randomized wander target).  They are supplied as oracle
    functions and every theorem quantifies over them. -/
structure Ext where
  calc_next_movement : Position → Position → ℚ
  orientation_to_direction : ℚ → Orientation
  direction_movement : ℚ → Position
  direction_movement_180 : Position → Position
  direction : Position → Position → ℚ
  can_move_to_tile : Position → Bool
  add_random_offset_to_screen_pos : Position → Position

/-- Modelled from the spec: `calc_hypotenuse` (graphics helper, not under src/)
    is the Euclidean norm, the hypotenuse of its two arguments (spec §4.2 step 3).
    The core only ever compares the hypotenuse against the positive constant
    300.0, so the comparison is embedded as the equivalent decidable comparison
    of squares; theorem `hypot_lt_iff_sqrt_lt` below proves the equivalence with
    the real square root. -/
abbrev hypot_lt (a b c : ℚ) : Prop := a * a + b * b < c * c

/-- Modelled from the spec: `overlaps` (graphics helper, not under src/) is the
    axis-aligned overlap test of two boxes of half-extents `hx`, `hy` centered at
    the two positions (spec §4.3; §8 overlap examples: centers (100,100) and
    (108,108) with half-extent 15 overlap, (100,100) and (140,140) do not). -/
abbrev overlaps (a b : Position) (hx hy : ℚ) : Prop :=
  abs (a.x - b.x) < hx + hx ∧ abs (a.y - b.y) < hy + hy

/-- The per-agent simulation record `ZombieDrawable` (src/zombie/mod.rs,
    lines 33-47).  `direction` is the facing direction used for sprite lookup,
    `orientation` the motion orientation; both reuse the `Orientation` enum. -/
structure ZombieDrawable where
  projection : Projection
  position : Position
  previous_position : Position
  orientation : Orientation
  stance : Stance
  direction : Orientation
  last_decision : ℕ
  movement_direction : Position
  zombie_idx : ℕ
  zombie_death_idx : ℕ
  is_colliding : Bool
  movement_speed : ℚ
  deriving DecidableEq, Repr

/-- `ZombieDrawable::new` (lines 50-67).  The initial GPU projection is computed
    by excluded collaborators and is opaque to the core; its placeholder is 0. -/
def ZombieDrawable.new (position : Position) : ZombieDrawable where
  projection := 0
  position := position
  previous_position := ⟨0, 0⟩
  orientation := Orientation.Left
  stance := Stance.Still
  direction := Orientation.Left
  last_decision := 0
  movement_direction := ⟨0, 0⟩
  zombie_idx := 0
  zombie_death_idx := 0
  is_colliding := false
  movement_speed := 0

/-- `ZombieDrawable::idle_direction_movement` (lines 104-119): the idle wander
    sub-policy.  First the bounce-back from unwalkable tiles, then the throttled
    re-decision that re-rolls a wander target. -/
def ZombieDrawable.idle_direction_movement (s : ZombieDrawable) (ext : Ext)
    (zombie_pos : Position) (game_time : ℕ) : ZombieDrawable :=
  let s1 :=
    if ¬ ext.can_move_to_tile zombie_pos then
      let dir := ext.direction ⟨0, 0⟩ s.movement_direction
      { s with movement_direction := ext.direction_movement_180 s.movement_direction,
               orientation := ext.orientation_to_direction dir }
    else s
  if s1.last_decision + 2 < game_time ∨ game_time = 0 then
    let end_point := ext.add_random_offset_to_screen_pos zombie_pos
    let dir := ext.calc_next_movement zombie_pos end_point
    { s1 with stance := Stance.Walking,
              last_decision := game_time,
              movement_direction := ext.direction_movement dir,
              direction := ext.orientation_to_direction dir }
  else s1

/-- `ZombieDrawable::update` (lines 69-102): the Decision Engine tick.  Note the
    order of the source: `offset_delta` is computed from the old snapshot, the
    snapshot is then overwritten with the player's current position, and
    `x_y_distance_to_player` is `self.position - offset_delta` (the agent's
    position minus the player's displacement since the previous tick). -/
def ZombieDrawable.update (s : ZombieDrawable) (ext : Ext) (world_to_clip : Projection)
    (ci : CharacterInputState) (game_time : ℕ) : ZombieDrawable :=
  let offset_delta := ci.movement - s.previous_position
  let x_y_distance_to_player := s.position - offset_delta
  let s1 := { s with projection := world_to_clip, previous_position := ci.movement }
  let s2 :=
    if s1.stance ≠ Stance.NormalDeath ∧ s1.stance ≠ Stance.CriticalDeath then
      let zombie_pos := ci.movement - s1.position
      if hypot_lt (abs x_y_distance_to_player.x) (abs x_y_distance_to_player.y) 300 then
        let dir := ext.calc_next_movement zombie_pos s1.previous_position
        { s1 with direction := ext.orientation_to_direction dir,
                  movement_direction := ext.direction_movement dir,
                  stance := Stance.Walking,
                  movement_speed := 1.4 }
      else
        let s3 := s1.idle_direction_movement ext zombie_pos game_time
        { s3 with movement_speed := 1 }
    else
      { s1 with movement_direction := ⟨0, 0⟩ }
  { s2 with position :=
      (Position.mk (s2.movement_direction.x * s2.movement_speed)
        (s2.movement_direction.y * s2.movement_speed) + s2.position + offset_delta) }

/-- One projectile test of `ZombieDrawable::check_bullet_hits` (lines 122-130):
    on overlap with a not-yet-dead agent, a random boolean picks the death
    stance (true gives NormalDeath, false CriticalDeath). -/
def ZombieDrawable.check_hit (s : ZombieDrawable) (r : Bool) (bullet : BulletDrawable) :
    ZombieDrawable :=
  if overlaps s.position bullet.position 15 15 ∧
      s.stance ≠ Stance.NormalDeath ∧ s.stance ≠ Stance.CriticalDeath then
    { s with stance := if r then Stance.NormalDeath else Stance.CriticalDeath }
  else s

/-- The iteration of `ZombieDrawable::check_bullet_hits`, threading the position
    in the bullet list into the random oracle: `get_random_bool` is impure in
    the source, so each potential draw is an independent oracle value and
    quantifying over `rand` covers every behaviour of the random source. -/
def ZombieDrawable.check_bullet_hits_from (s : ZombieDrawable) (rand : ℕ → Bool) (i : ℕ) :
    List BulletDrawable → ZombieDrawable
  | [] => s
  | bullet :: rest =>
      (s.check_hit (rand i) bullet).check_bullet_hits_from rand (i + 1) rest

/-- `ZombieDrawable::check_bullet_hits` (lines 121-132): the Collision Resolver. -/
def ZombieDrawable.check_bullet_hits (s : ZombieDrawable) (rand : ℕ → Bool)
    (bullets : List BulletDrawable) : ZombieDrawable :=
  s.check_bullet_hits_from rand 0 bullets

/-- `ZombieDrawable::update_alive_idx` (lines 134-140): increment and wrap the
    alive animation counter. -/
def ZombieDrawable.update_alive_idx (s : ZombieDrawable) (max_idx : ℕ) : ZombieDrawable :=
  if s.zombie_idx < max_idx then
    { s with zombie_idx := s.zombie_idx + 1 }
  else
    { s with zombie_idx := 0 }

/-- `ZombieDrawable::update_death_idx` (lines 142-146): increment and clamp the
    death animation counter. -/
def ZombieDrawable.update_death_idx (s : ZombieDrawable) (max_idx : ℕ) : ZombieDrawable :=
  if s.zombie_death_idx < max_idx then
    { s with zombie_death_idx := s.zombie_death_idx + 1 }
  else s

/-- Per-cell sprite metadata record (`critter::CritterData`, not under src/): a
    four-float record whose entry 2 is the cell's pixel width (spec §6). -/
structure CritterData where
  data : Fin 4 → ℚ

/-- Modelled from the spec: the sprite-sheet layout constants (game::constants,
    not under src/).  `ZOMBIE_STILL_SPRITE_OFFSET` is the spec's WALK_OFFSET
    (32 in the §8 example); the remaining values are kept abstract, so the
    theorems hold for every choice. -/
structure SheetConsts where
  ZOMBIE_STILL_SPRITE_OFFSET : ℕ
  NORMAL_DEATH_SPRITE_OFFSET : ℕ
  ZOMBIE_SHEET_TOTAL_WIDTH : ℚ
  SPRITE_OFFSET : ℚ

/-- The Animation Indexer output record (`shaders::CharacterSheet`): the
    SheetCell of spec §3. -/
structure CharacterSheet where
  x_div : ℚ
  y_div : ℚ
  row_idx : ℕ
  index : ℚ
  deriving DecidableEq, Repr

/-- The Animation Indexer's owner: of `ZombieDrawSystem` only the per-cell
    metadata table matters to the core (the GPU bundle is opaque); the table is
    total, as in spec §6. -/
structure ZombieDrawSystem where
  data : ℕ → CritterData

/-- `ZombieDrawSystem::get_next_sprite` (lines 199-238).  Returns the sheet cell
    together with the resulting drawable: the source takes the drawable by
    mutable reference and the fallback arm assigns its `direction` field, so the
    embedding returns the record it leaves behind. -/
def ZombieDrawSystem.get_next_sprite (sys : ZombieDrawSystem) (consts : SheetConsts)
    (drawable : ZombieDrawable) : CharacterSheet × ZombieDrawable :=
  let fallback : ℕ × ZombieDrawable :=
    (drawable.orientation.code * 8 + drawable.zombie_idx + consts.ZOMBIE_STILL_SPRITE_OFFSET,
     { drawable with direction := drawable.orientation })
  let zombie_sprite : ℕ × ZombieDrawable :=
    match drawable.stance with
    | Stance.Still =>
        (drawable.direction.code * 4 + drawable.zombie_idx, drawable)
    | Stance.Walking =>
        if drawable.orientation ≠ Orientation.Still then
          (drawable.direction.code * 8 + drawable.zombie_idx +
             consts.ZOMBIE_STILL_SPRITE_OFFSET, drawable)
        else fallback
    | Stance.NormalDeath =>
        if drawable.orientation ≠ Orientation.Still then
          (drawable.direction.code * 6 + drawable.zombie_death_idx +
             consts.NORMAL_DEATH_SPRITE_OFFSET, drawable)
        else fallback
    | Stance.CriticalDeath =>
        if drawable.orientation ≠ Orientation.Still then
          (drawable.direction.code * 8 + drawable.zombie_death_idx, drawable)
        else fallback
  let yr : ℚ × ℕ :=
    if drawable.stance = Stance.NormalDeath ∨ drawable.stance = Stance.CriticalDeath then
      (0, 2)
    else
      (1, 2)
  let elements_x :=
    consts.ZOMBIE_SHEET_TOTAL_WIDTH / ((sys.data zombie_sprite.1).data 2 + consts.SPRITE_OFFSET)
  ({ x_div := elements_x, y_div := yr.1, row_idx := yr.2, index := (zombie_sprite.1 : ℚ) },
   zombie_sprite.2)

/-- The mutating core operations of the reviewed subsystem as data, to state
    invariants over arbitrary sequences of calls. -/
inductive CoreOp where
  | decision (ext : Ext) (world_to_clip : Projection) (ci : CharacterInputState) (game_time : ℕ)
  | idleWander (ext : Ext) (zombie_pos : Position) (game_time : ℕ)
  | hits (rand : ℕ → Bool) (bullets : List BulletDrawable)
  | aliveIdx (max_idx : ℕ)
  | deathIdx (max_idx : ℕ)

/-- Apply one core operation to an agent. -/
def CoreOp.apply (s : ZombieDrawable) : CoreOp → ZombieDrawable
  | CoreOp.decision ext world_to_clip ci game_time => s.update ext world_to_clip ci game_time
  | CoreOp.idleWander ext zombie_pos game_time =>
      s.idle_direction_movement ext zombie_pos game_time
  | CoreOp.hits rand bullets => s.check_bullet_hits rand bullets
  | CoreOp.aliveIdx max_idx => s.update_alive_idx max_idx
  | CoreOp.deathIdx max_idx => s.update_death_idx max_idx

/-- Apply a sequence of core operations, left to right. -/
def CoreOp.applyAll (s : ZombieDrawable) (ops : List CoreOp) : ZombieDrawable :=
  ops.foldl CoreOp.apply s

/-- A concrete choice of external collaborators, used to evaluate the core on
    explicit inputs. -/
def ext0 : Ext where
  calc_next_movement := fun _ _ => 0
  orientation_to_direction := fun _ => Orientation.Right
  direction_movement := fun _ => ⟨1, 0⟩
  direction_movement_180 := fun p => ⟨-p.x, -p.y⟩
  direction := fun _ _ => 0
  can_move_to_tile := fun _ => true
  add_random_offset_to_screen_pos := fun p => p

/-- A concrete metadata table: every sheet cell 48 pixels wide. -/
def sys0 : ZombieDrawSystem where
  data := fun _ => ⟨fun _ => 48⟩

/-- Concrete sheet constants, with the walk offset 32 of the spec's example. -/
def consts0 : SheetConsts where
  ZOMBIE_STILL_SPRITE_OFFSET := 32
  NORMAL_DEATH_SPRITE_OFFSET := 96
  ZOMBIE_SHEET_TOTAL_WIDTH := 1024
  SPRITE_OFFSET := 2

/-- A concrete agent to instantiate hypotheses on. -/
def z0 : ZombieDrawable := ZombieDrawable.new ⟨0, 0⟩

/-- A Walking agent whose orientation is the Still sentinel (its facing
    direction is still the initial Left). -/
def zFallback : ZombieDrawable :=
  { z0 with stance := Stance.Walking, orientation := Orientation.Still }

/-- A Still agent with facing code 2 and alive frame 1. -/
def zSheet9 : ZombieDrawable :=
  { z0 with direction := Orientation.Up, zombie_idx := 1 }

/-- A Walking agent with directional orientation, facing code 3, alive frame 2. -/
def zSheet58 : ZombieDrawable :=
  { z0 with stance := Stance.Walking, orientation := Orientation.Right, direction := Orientation.UpLeft, zombie_idx := 2 }

/-- Componentwise unfolding of vector addition. -/
@[simp] theorem Position.add_def (a b : Position) : a + b = ⟨a.x + b.x, a.y + b.y⟩ := rfl

/-- Componentwise unfolding of vector subtraction. -/
@[simp] theorem Position.sub_def (a b : Position) : a - b = ⟨a.x - b.x, a.y - b.y⟩ := rfl

/-- The embedded squared comparison agrees with comparing the real Euclidean
    hypotenuse against a positive threshold, justifying the embedding of
    `calc_hypotenuse(a, b) < c`. -/
theorem hypot_lt_iff_sqrt_lt (a b c : ℚ) (hc : 0 < c) :
    hypot_lt a b c ↔ Real.sqrt ((a : ℝ) ^ 2 + (b : ℝ) ^ 2) < (c : ℝ) := by
  rw [Real.sqrt_lt' (by exact_mod_cast hc)]
  rw [show ((a : ℝ) ^ 2 + (b : ℝ) ^ 2) = ((a * a + b * b : ℚ) : ℝ) by push_cast; ring]
  rw [show ((c : ℝ) ^ 2) = ((c * c : ℚ) : ℝ) by push_cast; ring]
  exact ⟨fun h => by exact_mod_cast h, fun h => by exact_mod_cast h⟩

/-- The idle wander sub-policy never moves the agent's position. -/
theorem idle_position (s : ZombieDrawable) (ext : Ext) (zp : Position) (t : ℕ) :
    (s.idle_direction_movement ext zp t).position = s.position := by
  simp only [ZombieDrawable.idle_direction_movement]
  split_ifs <;> rfl

/-- The idle wander sub-policy leaves the stance unchanged or sets Walking. -/
theorem idle_stance_cases (s : ZombieDrawable) (ext : Ext) (zp : Position) (t : ℕ) :
    (s.idle_direction_movement ext zp t).stance = s.stance ∨
      (s.idle_direction_movement ext zp t).stance = Stance.Walking := by
  simp only [ZombieDrawable.idle_direction_movement]
  split_ifs <;> simp

/-- A dead agent's Decision Engine tick only zeroes the movement vector and
    shifts the position by the player offset. -/
theorem update_of_dead (s : ZombieDrawable) (ext : Ext) (wc : Projection)
    (ci : CharacterInputState) (t : ℕ)
    (h : s.stance = Stance.NormalDeath ∨ s.stance = Stance.CriticalDeath) :
    (s.update ext wc ci t).stance = s.stance ∧
      (s.update ext wc ci t).movement_direction = ⟨0, 0⟩ := by
  rcases h with h | h <;> simp [ZombieDrawable.update, h]

/-- Inside the pursuit branch: stance forced to Walking and speed 1.4. -/
theorem update_of_lt (s : ZombieDrawable) (ext : Ext) (wc : Projection)
    (ci : CharacterInputState) (t : ℕ)
    (h : s.stance ≠ Stance.NormalDeath ∧ s.stance ≠ Stance.CriticalDeath)
    (hd : hypot_lt (abs ((s.position - (ci.movement - s.previous_position)).x))
      (abs ((s.position - (ci.movement - s.previous_position)).y)) 300) :
    (s.update ext wc ci t).stance = Stance.Walking ∧
      (s.update ext wc ci t).movement_speed = 1.4 := by
  simp only [ZombieDrawable.update]
  rw [if_pos (by simpa using h), if_pos hd]
  exact ⟨rfl, rfl⟩

/-- Inside the idle branch: speed 1. -/
theorem update_of_not_lt (s : ZombieDrawable) (ext : Ext) (wc : Projection)
    (ci : CharacterInputState) (t : ℕ)
    (h : s.stance ≠ Stance.NormalDeath ∧ s.stance ≠ Stance.CriticalDeath)
    (hd : ¬ hypot_lt (abs ((s.position - (ci.movement - s.previous_position)).x))
      (abs ((s.position - (ci.movement - s.previous_position)).y)) 300) :
    (s.update ext wc ci t).movement_speed = 1 := by
  simp only [ZombieDrawable.update]
  rw [if_pos (by simpa using h), if_neg hd]

/-- The Decision Engine tick leaves the stance unchanged or sets Walking. -/
theorem update_stance_cases (s : ZombieDrawable) (ext : Ext) (wc : Projection)
    (ci : CharacterInputState) (t : ℕ) :
    (s.update ext wc ci t).stance = s.stance ∨
      (s.update ext wc ci t).stance = Stance.Walking := by
  simp only [ZombieDrawable.update]
  split_ifs with h1 h2
  · right; rfl
  · rcases idle_stance_cases _ ext _ t with h | h
    · left; simpa using h
    · right; simpa using h
  · left; rfl

/-- One projectile test leaves the stance unchanged or sets a death stance. -/
theorem check_hit_stance_cases (s : ZombieDrawable) (r : Bool) (b : BulletDrawable) :
    (s.check_hit r b).stance = s.stance ∨
      (s.check_hit r b).stance = Stance.NormalDeath ∨
      (s.check_hit r b).stance = Stance.CriticalDeath := by
  unfold ZombieDrawable.check_hit
  split_ifs with h hr
  · right; left; rfl
  · right; right; rfl
  · left; rfl

/-- The Collision Resolver iteration leaves the stance unchanged or sets a
    death stance. -/
theorem check_from_stance_cases (bullets : List BulletDrawable) (rand : ℕ → Bool) (i : ℕ)
    (s : ZombieDrawable) :
    (s.check_bullet_hits_from rand i bullets).stance = s.stance ∨
      (s.check_bullet_hits_from rand i bullets).stance = Stance.NormalDeath ∨
      (s.check_bullet_hits_from rand i bullets).stance = Stance.CriticalDeath := by
  induction bullets generalizing i s with
  | nil => left; rfl
  | cons b rest ih =>
      have hstep : s.check_bullet_hits_from rand i (b :: rest) =
          (s.check_hit (rand i) b).check_bullet_hits_from rand (i + 1) rest := rfl
      rcases ih (i + 1) (s.check_hit (rand i) b) with h | h | h <;> rw [hstep, h]
      · exact check_hit_stance_cases s (rand i) b
      · right; left; rfl
      · right; right; rfl

/-- The Collision Resolver never touches an agent already in a death stance. -/
theorem check_from_of_dead (bullets : List BulletDrawable) (rand : ℕ → Bool) (i : ℕ)
    (s : ZombieDrawable)
    (h : s.stance = Stance.NormalDeath ∨ s.stance = Stance.CriticalDeath) :
    s.check_bullet_hits_from rand i bullets = s := by
  induction bullets generalizing i s with
  | nil => rfl
  | cons b rest ih =>
      have hchk : s.check_hit (rand i) b = s := by
        unfold ZombieDrawable.check_hit
        rw [if_neg]
        rcases h with h | h <;> simp [h]
      have hstep : s.check_bullet_hits_from rand i (b :: rest) =
          (s.check_hit (rand i) b).check_bullet_hits_from rand (i + 1) rest := rfl
      rw [hstep, hchk]
      exact ih (i + 1) s h

/-- The frame-counter helpers never touch the stance. -/
theorem idx_stance (s : ZombieDrawable) (m : ℕ) :
    (s.update_alive_idx m).stance = s.stance ∧ (s.update_death_idx m).stance = s.stance := by
  unfold ZombieDrawable.update_alive_idx ZombieDrawable.update_death_idx
  constructor <;> split_ifs <;> rfl

/-- Claim C2: once an agent's stance is NormalDeath or CriticalDeath, a Decision
    Engine update does not change the stance and resolves the movement vector to
    zero, and a Collision Resolver pass (over any projectile list, overlapping
    ones included, and any behaviour of the random source) does not change the
    stance either; in particular an agent already in NormalDeath hit again stays
    NormalDeath. -/
theorem terminal_stance_monotone (ext : Ext) (rand : ℕ → Bool) (wc : Projection)
    (ci : CharacterInputState) (t : ℕ) (bullets : List BulletDrawable) (s : ZombieDrawable)
    (h : s.stance = Stance.NormalDeath ∨ s.stance = Stance.CriticalDeath) :
    (s.update ext wc ci t).stance = s.stance ∧
      (s.update ext wc ci t).movement_direction = ⟨0, 0⟩ ∧
      (s.check_bullet_hits rand bullets).stance = s.stance := by
  refine ⟨(update_of_dead s ext wc ci t h).1, (update_of_dead s ext wc ci t h).2, ?_⟩
  rw [ZombieDrawable.check_bullet_hits, check_from_of_dead bullets rand 0 s h]

/-- Witness for C2: a NormalDeath agent at the origin, hit by a projectile at the
    very same position (which does overlap), with a random source that would
    re-roll to CriticalDeath, keeps stance NormalDeath. -/
theorem terminal_stance_monotone_witness :
    (({ z0 with stance := Stance.NormalDeath }).check_bullet_hits (fun _ => false)
        [⟨⟨0, 0⟩⟩]).stance = Stance.NormalDeath ∧
      overlaps (⟨0, 0⟩ : Position) (⟨0, 0⟩ : Position) 15 15 :=
  ⟨(terminal_stance_monotone ext0 (fun _ => false) 0 ⟨⟨0, 0⟩⟩ 1 [⟨⟨0, 0⟩⟩]
      { z0 with stance := Stance.NormalDeath } (Or.inl rfl)).2.2,
   by constructor <;> norm_num⟩

/-- Claim C1 counterexample: an agent at the origin whose snapshot equals the
    player's unmoved position at (400, 0).  The engine takes the pursuit branch
    (stance forced to Walking) although the Euclidean comparison between the
    agent's position and the player's position is not below 300: the engine's
    quantity is the position minus the player's displacement (here zero), not
    the agent-player difference. -/
theorem distance_quantity_counterexample :
    (({ ZombieDrawable.new ⟨0, 0⟩ with previous_position := ⟨400, 0⟩ }).update ext0 0
        ⟨⟨400, 0⟩⟩ 2).stance = Stance.Walking ∧
      ¬ hypot_lt (abs ((0 : ℚ) - 400)) (abs ((0 : ℚ) - 0)) 300 := by
  constructor
  · exact (update_of_lt { ZombieDrawable.new ⟨0, 0⟩ with previous_position := ⟨400, 0⟩ }
      ext0 0 ⟨⟨400, 0⟩⟩ 2 (by decide) (by norm_num [ZombieDrawable.new])).1
  · norm_num [hypot_lt]

/-- Claim C1 (amended): for a live agent, the Decision Engine's 300-unit
    comparison is decided by exactly the hypotenuse of the absolute components
    of `agent.position - offset_delta`, where `offset_delta` is the player's
    displacement since the previous tick (not the agent-player difference):
    the pursuit branch (speed 1.4) fires precisely when that quantity is below
    300. -/
theorem pursuit_branch_quantity (ext : Ext) (s : ZombieDrawable) (wc : Projection)
    (ci : CharacterInputState) (t : ℕ)
    (h : s.stance ≠ Stance.NormalDeath ∧ s.stance ≠ Stance.CriticalDeath) :
    (s.update ext wc ci t).movement_speed = 1.4 ↔
      hypot_lt (abs ((s.position - (ci.movement - s.previous_position)).x))
        (abs ((s.position - (ci.movement - s.previous_position)).y)) 300 := by
  constructor
  · intro hs
    by_contra hd
    rw [update_of_not_lt s ext wc ci t h hd] at hs
    norm_num at hs
  · intro hd
    exact (update_of_lt s ext wc ci t h hd).2

/-- Witness for C1 (amended): a fresh agent on top of the player pursues at
    speed 1.4. -/
theorem pursuit_branch_quantity_witness :
    (z0.update ext0 0 ⟨⟨0, 0⟩⟩ 1).movement_speed = 1.4 :=
  (pursuit_branch_quantity ext0 z0 0 ⟨⟨0, 0⟩⟩ 1 (by decide)).mpr
    (by norm_num [z0, ZombieDrawable.new])

/-- Claim C5: the alive frame counter increments and wraps (from 0 with max 3
    the four successive values are 1, 2, 3, 0); the death frame counter
    increments and clamps (from 0 with max 2 the four successive values are
    1, 2, 2, 2) and never exceeds its maximum. -/
theorem frame_counter_behavior (s : ZombieDrawable) (ha : s.zombie_idx = 0)
    (hd : s.zombie_death_idx = 0) :
    (s.update_alive_idx 3).zombie_idx = 1 ∧
    ((s.update_alive_idx 3).update_alive_idx 3).zombie_idx = 2 ∧
    (((s.update_alive_idx 3).update_alive_idx 3).update_alive_idx 3).zombie_idx = 3 ∧
    ((((s.update_alive_idx 3).update_alive_idx 3).update_alive_idx 3).update_alive_idx
        3).zombie_idx = 0 ∧
    (s.update_death_idx 2).zombie_death_idx = 1 ∧
    ((s.update_death_idx 2).update_death_idx 2).zombie_death_idx = 2 ∧
    (((s.update_death_idx 2).update_death_idx 2).update_death_idx 2).zombie_death_idx = 2 ∧
    ((((s.update_death_idx 2).update_death_idx 2).update_death_idx 2).update_death_idx
        2).zombie_death_idx = 2 ∧
    ∀ (u : ZombieDrawable) (m : ℕ), u.zombie_death_idx ≤ m →
      (u.update_death_idx m).zombie_death_idx ≤ m := by
  refine ⟨?_, ?_, ?_, ?_, ?_, ?_, ?_, ?_, ?_⟩
  · simp [ZombieDrawable.update_alive_idx, ha]
  · simp [ZombieDrawable.update_alive_idx, ha]
  · simp [ZombieDrawable.update_alive_idx, ha]
  · simp [ZombieDrawable.update_alive_idx, ha]
  · simp [ZombieDrawable.update_death_idx, hd]
  · simp [ZombieDrawable.update_death_idx, hd]
  · simp [ZombieDrawable.update_death_idx, hd]
  · simp [ZombieDrawable.update_death_idx, hd]
  · intro u m hm
    unfold ZombieDrawable.update_death_idx
    split_ifs with hlt
    · simpa using hlt
    · exact hm

/-- Witness for C5: the fresh agent's counters start at 0 and advance to 1. -/
theorem frame_counter_behavior_witness :
    (z0.update_alive_idx 3).zombie_idx = 1 ∧
      (z0.update_death_idx 2).zombie_death_idx = 1 :=
  ⟨(frame_counter_behavior z0 rfl rfl).1,
   (frame_counter_behavior z0 rfl rfl).2.2.2.2.1⟩

/-- Claim C6: idle re-decision fires exactly when `last_decision + 2 <
    game_time` or `game_time = 0`; when it fires it forces stance Walking,
    stamps `last_decision` with the current tick and recomputes the movement
    vector and the facing direction together from one freshly computed heading;
    when it does not fire, `last_decision`, the stance and the facing direction
    are untouched. -/
theorem idle_redecision_cadence (ext : Ext) (s : ZombieDrawable) (zp : Position) (t : ℕ) :
    ((s.last_decision + 2 < t ∨ t = 0) →
      (s.idle_direction_movement ext zp t).stance = Stance.Walking ∧
      (s.idle_direction_movement ext zp t).last_decision = t ∧
      (s.idle_direction_movement ext zp t).movement_direction =
        ext.direction_movement
          (ext.calc_next_movement zp (ext.add_random_offset_to_screen_pos zp)) ∧
      (s.idle_direction_movement ext zp t).direction =
        ext.orientation_to_direction
          (ext.calc_next_movement zp (ext.add_random_offset_to_screen_pos zp))) ∧
    (¬ (s.last_decision + 2 < t ∨ t = 0) →
      (s.idle_direction_movement ext zp t).last_decision = s.last_decision ∧
      (s.idle_direction_movement ext zp t).stance = s.stance ∧
      (s.idle_direction_movement ext zp t).direction = s.direction) := by
  simp only [ZombieDrawable.idle_direction_movement]
  constructor <;> intro h <;> split_ifs with h1 h2 <;>
    first
      | exact ⟨rfl, rfl, rfl, rfl⟩
      | exact ⟨rfl, rfl, rfl⟩
      | exact absurd h h2
      | exact absurd h2 h

/-- Witness for C6: with `last_decision = 5` re-decision fires at tick 8
    (stamping 8) but not at tick 7 (leaving 5). -/
theorem idle_redecision_cadence_witness :
    (({ z0 with last_decision := 5 }).idle_direction_movement ext0 ⟨0, 0⟩ 8).last_decision = 8 ∧
      (({ z0 with last_decision := 5 }).idle_direction_movement ext0 ⟨0, 0⟩
          7).last_decision = 5 :=
  ⟨((idle_redecision_cadence ext0 { z0 with last_decision := 5 } ⟨0, 0⟩ 8).1
      (by decide)).2.1,
   ((idle_redecision_cadence ext0 { z0 with last_decision := 5 } ⟨0, 0⟩ 7).2
      (by decide)).1⟩

/-- Claim C7: for a live agent, the pursuit branch (stance Walking, speed 1.4)
    fires exactly when the engine's computed distance quantity is strictly below
    300, and otherwise the idle branch fires (speed 1); the boundary itself
    belongs to the idle side. -/
theorem pursuit_idle_boundary (ext : Ext) (s : ZombieDrawable) (wc : Projection)
    (ci : CharacterInputState) (t : ℕ)
    (h : s.stance ≠ Stance.NormalDeath ∧ s.stance ≠ Stance.CriticalDeath) :
    (hypot_lt (abs ((s.position - (ci.movement - s.previous_position)).x))
        (abs ((s.position - (ci.movement - s.previous_position)).y)) 300 →
      (s.update ext wc ci t).stance = Stance.Walking ∧
        (s.update ext wc ci t).movement_speed = 1.4) ∧
    (¬ hypot_lt (abs ((s.position - (ci.movement - s.previous_position)).x))
        (abs ((s.position - (ci.movement - s.previous_position)).y)) 300 →
      (s.update ext wc ci t).movement_speed = 1) :=
  ⟨fun hd => update_of_lt s ext wc ci t h hd,
   fun hd => update_of_not_lt s ext wc ci t h hd⟩

/-- Witness for C7: an agent at computed (and actual) distance exactly 300 from
    the player takes the idle branch (speed 1); at 299 it pursues (speed 1.4). -/
theorem pursuit_idle_boundary_witness :
    (({ z0 with position := ⟨300, 0⟩ }).update ext0 0 ⟨⟨0, 0⟩⟩ 1).movement_speed = 1 ∧
      (({ z0 with position := ⟨299, 0⟩ }).update ext0 0 ⟨⟨0, 0⟩⟩ 1).movement_speed = 1.4 :=
  ⟨(pursuit_idle_boundary ext0 { z0 with position := ⟨300, 0⟩ } 0 ⟨⟨0, 0⟩⟩ 1
      (by decide)).2 (by norm_num [z0, ZombieDrawable.new]),
   ((pursuit_idle_boundary ext0 { z0 with position := ⟨299, 0⟩ } 0 ⟨⟨0, 0⟩⟩ 1
      (by decide)).1 (by norm_num [z0, ZombieDrawable.new])).2⟩

/-- Claim C8: at the end of every Decision Engine update, for every agent
    (pursuing, idle or dead), the new position is the old position plus the
    resulting movement vector scaled by the resulting speed plus the player's
    displacement since the previous tick. -/
theorem position_update_formula (ext : Ext) (s : ZombieDrawable) (wc : Projection)
    (ci : CharacterInputState) (t : ℕ) :
    (s.update ext wc ci t).position =
      Position.mk
        ((s.update ext wc ci t).movement_direction.x * (s.update ext wc ci t).movement_speed
          + s.position.x + (ci.movement.x - s.previous_position.x))
        ((s.update ext wc ci t).movement_direction.y * (s.update ext wc ci t).movement_speed
          + s.position.y + (ci.movement.y - s.previous_position.y)) := by
  simp only [ZombieDrawable.update]
  split_ifs with h1 h2 <;> simp [idle_position]

/-- Claim C10: no core operation ever assigns the Still stance, so an agent
    whose stance is not Still keeps a non-Still stance across every sequence of
    Decision Engine updates, idle wander calls, Collision Resolver passes and
    frame-counter advances. -/
theorem still_stance_not_reintroduced (s : ZombieDrawable) (ops : List CoreOp)
    (h : s.stance ≠ Stance.Still) :
    (CoreOp.applyAll s ops).stance ≠ Stance.Still := by
  induction ops generalizing s with
  | nil => exact h
  | cons op rest ih =>
      have hstep : CoreOp.applyAll s (op :: rest) = CoreOp.applyAll (CoreOp.apply s op) rest :=
        rfl
      rw [hstep]
      refine ih _ ?_
      cases op with
      | decision ext wc ci t =>
          rcases update_stance_cases s ext wc ci t with hc | hc <;> simp [CoreOp.apply, hc, h]
      | idleWander ext zp t =>
          rcases idle_stance_cases s ext zp t with hc | hc <;> simp [CoreOp.apply, hc, h]
      | hits rand bullets =>
          rcases check_from_stance_cases bullets rand 0 s with hc | hc | hc <;>
            simp [CoreOp.apply, ZombieDrawable.check_bullet_hits, hc, h]
      | aliveIdx m => simp [CoreOp.apply, (idx_stance s m).1, h]
      | deathIdx m => simp [CoreOp.apply, (idx_stance s m).2, h]

/-- Witness for C10: a Walking agent put through a decision tick, a collision
    pass with an overlapping projectile and both frame-counter advances never
    lands back on Still. -/
theorem still_stance_not_reintroduced_witness :
    (CoreOp.applyAll { z0 with stance := Stance.Walking }
        [CoreOp.decision ext0 0 ⟨⟨0, 0⟩⟩ 1, CoreOp.hits (fun _ => true) [⟨⟨0, 0⟩⟩],
         CoreOp.aliveIdx 3, CoreOp.deathIdx 2]).stance ≠ Stance.Still :=
  still_stance_not_reintroduced { z0 with stance := Stance.Walking } _ (by decide)

/-- Claim C3 counterexample: the sheet-cell computation is not read-only.  On a
    Walking agent whose orientation is the Still sentinel but whose facing
    direction is Left, the fallback arm overwrites the facing direction, so the
    resulting agent state differs from the input. -/
theorem sprite_purity_counterexample :
    (sys0.get_next_sprite consts0 zFallback).2 ≠ zFallback := by
  intro hcontra
  have hdir := congrArg ZombieDrawable.direction hcontra
  simp [ZombieDrawSystem.get_next_sprite, zFallback, z0, ZombieDrawable.new] at hdir

/-- Claim C3 (amended): the sheet-cell computation leaves the agent state
    unchanged whenever the stance is Still or the orientation is directional;
    in the remaining fallback case (stance not Still, orientation Still) its
    only effect is to set the facing direction to the orientation. -/
theorem sprite_fallback_mutation (consts : SheetConsts) (sys : ZombieDrawSystem)
    (d : ZombieDrawable) :
    (sys.get_next_sprite consts d).2 =
      if d.stance ≠ Stance.Still ∧ d.orientation = Orientation.Still then
        { d with direction := d.orientation }
      else d := by
  cases hs : d.stance <;>
    by_cases ho : d.orientation = Orientation.Still <;>
      simp [ZombieDrawSystem.get_next_sprite, hs, ho]

/-- Claim C4: the Animation Indexer's linear sheet index follows the four
    documented formulas: Still gives facing*4 + alive frame; Walking with
    directional orientation gives facing*8 + alive frame + walk offset;
    NormalDeath with directional orientation gives facing*6 + death frame +
    normal-death offset; CriticalDeath with directional orientation gives
    facing*8 + death frame. -/
theorem sprite_index_formulas (consts : SheetConsts) (sys : ZombieDrawSystem)
    (d : ZombieDrawable) :
    (d.stance = Stance.Still →
      (sys.get_next_sprite consts d).1.index =
        ((d.direction.code * 4 + d.zombie_idx : ℕ) : ℚ)) ∧
    (d.stance = Stance.Walking → d.orientation ≠ Orientation.Still →
      (sys.get_next_sprite consts d).1.index =
        ((d.direction.code * 8 + d.zombie_idx + consts.ZOMBIE_STILL_SPRITE_OFFSET : ℕ) : ℚ)) ∧
    (d.stance = Stance.NormalDeath → d.orientation ≠ Orientation.Still →
      (sys.get_next_sprite consts d).1.index =
        ((d.direction.code * 6 + d.zombie_death_idx +
            consts.NORMAL_DEATH_SPRITE_OFFSET : ℕ) : ℚ)) ∧
    (d.stance = Stance.CriticalDeath → d.orientation ≠ Orientation.Still →
      (sys.get_next_sprite consts d).1.index =
        ((d.direction.code * 8 + d.zombie_death_idx : ℕ) : ℚ)) := by
  refine ⟨fun hs => ?_, fun hs ho => ?_, fun hs ho => ?_, fun hs ho => ?_⟩ <;>
    simp [ZombieDrawSystem.get_next_sprite, hs, *]

/-- Witness for C4: facing code 2, alive frame 1, stance Still resolves to 9;
    facing code 3, alive frame 2, walk offset 32, stance Walking with a
    directional orientation resolves to 58. -/
theorem sprite_index_formulas_witness :
    (sys0.get_next_sprite consts0 zSheet9).1.index = 9 ∧
      (sys0.get_next_sprite consts0 zSheet58).1.index = 58 := by
  constructor
  · have h := (sprite_index_formulas consts0 sys0 zSheet9).1 rfl
    rw [h]
    norm_num [zSheet9, z0, ZombieDrawable.new, Orientation.code]
  · have h := ((sprite_index_formulas consts0 sys0 zSheet58).2.1) rfl (by decide)
    rw [h]
    norm_num [zSheet58, z0, ZombieDrawable.new, Orientation.code, consts0]

/-- Claim C9: in every produced sheet cell, the row selector is the fixed
    constant 2, the sub-row offset is 0 for the death stances and 1 otherwise,
    and the column count is the sheet's total width divided by the pixel width
    stored in the metadata table at the resolved cell index itself plus the
    fixed padding. -/
theorem sheet_cell_metadata (consts : SheetConsts) (sys : ZombieDrawSystem)
    (d : ZombieDrawable) :
    (sys.get_next_sprite consts d).1.row_idx = 2 ∧
    (sys.get_next_sprite consts d).1.y_div =
      (if d.stance = Stance.NormalDeath ∨ d.stance = Stance.CriticalDeath then 0 else 1) ∧
    ∃ i : ℕ, (sys.get_next_sprite consts d).1.index = (i : ℚ) ∧
      (sys.get_next_sprite consts d).1.x_div =
        consts.ZOMBIE_SHEET_TOTAL_WIDTH / ((sys.data i).data 2 + consts.SPRITE_OFFSET) := by
  refine ⟨?_, ?_, ?_⟩
  · simp only [ZombieDrawSystem.get_next_sprite]
    split_ifs <;> rfl
  · simp only [ZombieDrawSystem.get_next_sprite]
    split_ifs <;> rfl
  · simp only [ZombieDrawSystem.get_next_sprite]
    exact ⟨_, rfl, rfl⟩

end ZombieGame
